import Mathlib

/-!
Verification of the cost/tax calculation engine of the Licitacao Cost
Calculator (`src/main.py`: `state_rate` and `calculate_report`).

Python floats are modelled by `ℚ` (exact rational arithmetic); Python's
truthiness-based defaulting (`x or d`) is modelled by explicit comparison
with the falsy value (`0` for numbers, `""` for strings); an absent
optional field is modelled by its falsy value, which Python's `or`
treats identically.  All definitions are computable, so every concrete
figure below is obtained by evaluating the embedded program.
-/

/-- Mirrors `COMPANY_STATE = 'MG'` (src/main.py line 49). -/
def COMPANY_STATE : String := "MG"

/-- Mirrors `DEFAULT_INTERSTATE_RATE = 0.12` (line 50). -/
def DEFAULT_INTERSTATE_RATE : ℚ := 12/100

/-- Mirrors `DEFAULT_STATE_RATES = {'MG': 0.18, 'SP': 0.18, 'RJ': 0.20}` (line 51). -/
def DEFAULT_STATE_RATES : List (String × ℚ) := [("MG", 18/100), ("SP", 18/100), ("RJ", 20/100)]

/-- Mirrors `DEFAULT_SIMPLES_RATE = 0.05` (line 52). -/
def DEFAULT_SIMPLES_RATE : ℚ := 5/100

/-- A product row as handed to the engine (`load_project`, lines 112-118):
missing numeric fields already defaulted to the falsy value (`0` for costs
and qty, `""` for states), exactly as `r[i] or default` does there. -/
structure Product where
  description : String
  purchase_cost : ℚ
  sale_price : ℚ
  qty : Nat
  purchase_state : String
  sale_state : String
deriving DecidableEq, Repr

/-- An other-cost row (`load_project`, lines 119-123). -/
structure OtherCost where
  description : String
  cost : ℚ
deriving DecidableEq, Repr

/-- A project record as handed to `calculate_report` (lines 102-124). -/
structure Project where
  project_number : String
  client_name : String
  gross_sale : ℚ
  purchase_state : String
  sale_state : String
  simples_rate : ℚ
  products : List Product
  other_costs : List OtherCost
deriving DecidableEq, Repr

/-- One entry of the report's `products` list: the per-item subtotals built
in the first loop of `calculate_report` (lines 137-149) together with the
`difal_out` / `difal_in` figures attached by the two following loops
(lines 153-167).  Attaching them at construction is sound because each
figure depends only on this item's own fields. -/
structure Item where
  description : String
  qty : Nat
  purchase_total : ℚ
  sale_total : ℚ
  purchase_state : String
  sale_state : String
  difal_out : ℚ
  difal_in : ℚ
deriving DecidableEq, Repr

/-- The compiled report (lines 177-200), minus the creation timestamp and
the free-text note, which carry no computed content. -/
structure Report where
  project_number : String
  client_name : String
  company_state : String
  gross_sale : ℚ
  simples_rate : ℚ
  das_total : ℚ
  products : List Item
  total_purchase : ℚ
  total_difal_in : ℚ
  total_difal_out : ℚ
  other_costs : List OtherCost
  total_other : ℚ
  total_cost : ℚ
  net_value : ℚ
  net_percent : ℚ
  min_sale_for_profit : List (String × ℚ)
  interstate_rate : ℚ
  state_rates : List (String × ℚ)
deriving DecidableEq, Repr

/-- Python's `str.upper()` on the ASCII state codes this program handles:
uppercase every character. -/
def upper (s : String) : String :=
  String.mk (s.data.map Char.toUpper)

/-- Mirrors `state_rate` (lines 97-100): empty string yields `0.0`,
otherwise the uppercased code is looked up in `DEFAULT_STATE_RATES`,
with `DEFAULT_INTERSTATE_RATE` as the `dict.get` default.  The function
is total: no input raises an error. -/
def state_rate (state : String) : ℚ :=
  if state = "" then 0
  else
    match DEFAULT_STATE_RATES.lookup (upper state) with
    | some r => r
    | none => DEFAULT_INTERSTATE_RATE

/-- Mirrors `p.get('qty') or 1` (lines 127 and 138): a zero (or absent)
quantity is replaced by 1. -/
def effQty (p : Product) : Nat :=
  if p.qty = 0 then 1 else p.qty

/-- `purchase_total = float(p.get('purchase_cost') or 0.0) * qty` (line 139). -/
def purchaseTotal (p : Product) : ℚ :=
  p.purchase_cost * (effQty p : ℚ)

/-- `sale_total = float(p.get('sale_price') or 0.0) * qty` (line 140). -/
def saleTotal (p : Product) : ℚ :=
  p.sale_price * (effQty p : ℚ)

/-- `(p.get(k) or project.get(k) or '').upper()` (lines 143-144): the
product's state if non-empty, else the project default, uppercased. -/
def resolveState (prodState projState : String) : String :=
  upper (if prodState = "" then projState else prodState)

/-- Builds one entry of `product_subtotals` (lines 145-149) with its
`difal_out` (lines 155-157) and `difal_in` (lines 163-165) figures.
`state_rate COMPANY_STATE` is the `company_internal_rate` of line 135. -/
def mkItem (proj : Project) (p : Product) : Item :=
  let purchase_total := purchaseTotal p
  let sale_total := saleTotal p
  let origin := resolveState p.purchase_state proj.purchase_state
  let dest := resolveState p.sale_state proj.sale_state
  let sale_value := if 0 < sale_total then sale_total else purchase_total
  { description := p.description
    qty := effQty p
    purchase_total := purchase_total
    sale_total := sale_total
    purchase_state := origin
    sale_state := dest
    difal_out :=
      if dest ≠ "" ∧ dest ≠ COMPANY_STATE then
        max 0 (state_rate dest - DEFAULT_INTERSTATE_RATE) * sale_value
      else 0
    difal_in :=
      if origin ≠ "" ∧ origin ≠ COMPANY_STATE then
        max 0 (state_rate COMPANY_STATE - DEFAULT_INTERSTATE_RATE) * purchase_total
      else 0 }

/-- `total_sale_from_products` (line 127): `sum((p['sale_price'] or 0) * (p['qty'] or 1))`. -/
def total_sale_from_products (proj : Project) : ℚ :=
  (proj.products.map saleTotal).sum

/-- The resolved gross sale (line 128): the product-derived sum when
strictly positive, else the project's manual `gross_sale`. -/
def grossOf (proj : Project) : ℚ :=
  if 0 < total_sale_from_products proj then total_sale_from_products proj
  else proj.gross_sale

/-- The effective Simples rate (line 129): the project's rate unless it is
zero/absent, in which case `DEFAULT_SIMPLES_RATE`. -/
def effSimplesRate (proj : Project) : ℚ :=
  if proj.simples_rate = 0 then DEFAULT_SIMPLES_RATE else proj.simples_rate

/-- Rounds a rational to an integer, halves to the even neighbour: the tie
rule of Python's `round`. -/
def roundHalfEven (q : ℚ) : ℤ :=
  if q - ⌊q⌋ < 1/2 then ⌊q⌋
  else if 1/2 < q - ⌊q⌋ then ⌊q⌋ + 1
  else if ⌊q⌋ % 2 = 0 then ⌊q⌋ else ⌊q⌋ + 1

/-- `round(x, 2)` (line 175): round to the nearest multiple of 1/100. -/
def round2 (q : ℚ) : ℚ :=
  (roundHalfEven (q * 100) : ℚ) / 100

/-- `profit_margins = [0.10, 0.15, 0.20]` (line 174). -/
def profit_margins : List ℚ := [10/100, 15/100, 20/100]

/-- The dict key `f"{int(m*100)}%"` (line 175). -/
def marginLabel (m : ℚ) : String :=
  toString ⌊m * 100⌋ ++ "%"

/-- Mirrors `calculate_report` (lines 126-201). -/
def calculate_report (proj : Project) : Report :=
  let gross := grossOf proj
  let simples_rate := effSimplesRate proj
  let items := proj.products.map (mkItem proj)
  let total_purchase := (items.map Item.purchase_total).sum
  let das_total := gross * simples_rate
  let total_difal_out := (items.map Item.difal_out).sum
  let total_difal_in := (items.map Item.difal_in).sum
  let total_other := (proj.other_costs.map OtherCost.cost).sum
  let total_cost := total_purchase + total_difal_in + total_difal_out + total_other + das_total
  let net_value := gross - total_cost
  let net_percent := if gross ≠ 0 then net_value / gross * 100 else 0
  { project_number := proj.project_number
    client_name := proj.client_name
    company_state := COMPANY_STATE
    gross_sale := gross
    simples_rate := simples_rate
    das_total := das_total
    products := items
    total_purchase := total_purchase
    total_difal_in := total_difal_in
    total_difal_out := total_difal_out
    other_costs := proj.other_costs
    total_other := total_other
    total_cost := total_cost
    net_value := net_value
    net_percent := net_percent
    min_sale_for_profit :=
      profit_margins.map (fun m => (marginLabel m, round2 (total_cost / (1 - m))))
    interstate_rate := DEFAULT_INTERSTATE_RATE
    state_rates := DEFAULT_STATE_RATES }

/-- Replaces an absent/zero quantity by 1 on the product record itself,
before any aggregation. -/
def normalizeQty (p : Product) : Product :=
  if p.qty = 0 then { p with qty := 1 } else p

/-- The worked example of spec §8: purchase 100, sale 150, qty 2,
SP origin, RJ destination. -/
def exampleProd : Product :=
  { description := "prod"
    purchase_cost := 100
    sale_price := 150
    qty := 2
    purchase_state := "SP"
    sale_state := "RJ" }

/-- The worked example project of spec §8 (home state MG, Simples 5%). -/
def exampleProj : Project :=
  { project_number := "P1"
    client_name := "ACME"
    gross_sale := 0
    purchase_state := ""
    sale_state := ""
    simples_rate := 5/100
    products := [exampleProd]
    other_costs := [] }

/-- A project with a large manual `gross_sale` and one positively priced
product, exercising the line-item override. -/
def overrideProj : Project :=
  { project_number := "P2"
    client_name := "ACME"
    gross_sale := 1000000
    purchase_state := ""
    sale_state := ""
    simples_rate := 5/100
    products := [exampleProd]
    other_costs := [] }

/-- A product sold into a state absent from the rate table. -/
def unknownStateProd : Product :=
  { description := "prod"
    purchase_cost := 10
    sale_price := 50
    qty := 1
    purchase_state := ""
    sale_state := "BA" }

/-- A project whose only product has an unknown destination state. -/
def unknownStateProj : Project :=
  { project_number := "P3"
    client_name := "ACME"
    gross_sale := 0
    purchase_state := ""
    sale_state := ""
    simples_rate := 5/100
    products := [unknownStateProd]
    other_costs := [] }

/- ------------------------------------------------------------------ -/
/- Helper lemmas: definitional projections of the embedded program.     -/
/- ------------------------------------------------------------------ -/

lemma report_gross (proj : Project) : (calculate_report proj).gross_sale = grossOf proj := rfl

lemma report_simples (proj : Project) :
    (calculate_report proj).simples_rate = effSimplesRate proj := rfl

lemma report_das (proj : Project) :
    (calculate_report proj).das_total = grossOf proj * effSimplesRate proj := rfl

lemma report_products (proj : Project) :
    (calculate_report proj).products = proj.products.map (mkItem proj) := rfl

lemma report_total_purchase (proj : Project) :
    (calculate_report proj).total_purchase =
      ((proj.products.map (mkItem proj)).map Item.purchase_total).sum := rfl

lemma report_total_difal_in (proj : Project) :
    (calculate_report proj).total_difal_in =
      ((proj.products.map (mkItem proj)).map Item.difal_in).sum := rfl

lemma report_total_difal_out (proj : Project) :
    (calculate_report proj).total_difal_out =
      ((proj.products.map (mkItem proj)).map Item.difal_out).sum := rfl

lemma report_total_other (proj : Project) :
    (calculate_report proj).total_other = (proj.other_costs.map OtherCost.cost).sum := rfl

lemma report_total_cost (proj : Project) :
    (calculate_report proj).total_cost =
      (calculate_report proj).total_purchase + (calculate_report proj).total_difal_in +
        (calculate_report proj).total_difal_out + (calculate_report proj).total_other +
        (calculate_report proj).das_total := rfl

lemma report_net_value (proj : Project) :
    (calculate_report proj).net_value =
      (calculate_report proj).gross_sale - (calculate_report proj).total_cost := rfl

lemma report_net_percent (proj : Project) :
    (calculate_report proj).net_percent =
      if (calculate_report proj).gross_sale ≠ 0 then
        (calculate_report proj).net_value / (calculate_report proj).gross_sale * 100
      else 0 := rfl

lemma report_min_sale (proj : Project) :
    (calculate_report proj).min_sale_for_profit =
      profit_margins.map
        (fun m => (marginLabel m, round2 ((calculate_report proj).total_cost / (1 - m)))) := rfl

lemma mkItem_purchase_total (proj : Project) (p : Product) :
    (mkItem proj p).purchase_total = purchaseTotal p := rfl

lemma mkItem_sale_total (proj : Project) (p : Product) :
    (mkItem proj p).sale_total = saleTotal p := rfl

lemma mkItem_purchase_state (proj : Project) (p : Product) :
    (mkItem proj p).purchase_state = resolveState p.purchase_state proj.purchase_state := rfl

lemma mkItem_sale_state (proj : Project) (p : Product) :
    (mkItem proj p).sale_state = resolveState p.sale_state proj.sale_state := rfl

lemma mkItem_difal_out (proj : Project) (p : Product) :
    (mkItem proj p).difal_out =
      if (mkItem proj p).sale_state ≠ "" ∧ (mkItem proj p).sale_state ≠ COMPANY_STATE then
        max 0 (state_rate (mkItem proj p).sale_state - DEFAULT_INTERSTATE_RATE) *
          (if 0 < (mkItem proj p).sale_total then (mkItem proj p).sale_total
           else (mkItem proj p).purchase_total)
      else 0 := rfl

lemma mkItem_difal_in (proj : Project) (p : Product) :
    (mkItem proj p).difal_in =
      if (mkItem proj p).purchase_state ≠ "" ∧ (mkItem proj p).purchase_state ≠ COMPANY_STATE then
        max 0 (state_rate COMPANY_STATE - DEFAULT_INTERSTATE_RATE) *
          (mkItem proj p).purchase_total
      else 0 := rfl

/- String-level evaluation facts, settled by kernel computation. -/

lemma upper_SP : upper "SP" = "SP" := by decide

lemma upper_RJ : upper "RJ" = "RJ" := by decide

lemma upper_MG : upper "MG" = "MG" := by decide

lemma upper_empty : upper "" = "" := by decide

lemma SP_ne_empty : ("SP" : String) ≠ "" := by decide

lemma RJ_ne_empty : ("RJ" : String) ≠ "" := by decide

lemma SP_ne_MG : ("SP" : String) ≠ "MG" := by decide

lemma RJ_ne_MG : ("RJ" : String) ≠ "MG" := by decide

lemma sr_RJ : state_rate "RJ" = 20/100 := rfl

lemma sr_MG : state_rate "MG" = 18/100 := rfl

/- Evaluation of the worked example of spec §8, as a sanity check of the
embedding against the spec's expected figures. -/

lemma example_gross : (calculate_report exampleProj).gross_sale = 300 := by
  norm_num [calculate_report, exampleProj, exampleProd, grossOf, total_sale_from_products,
    saleTotal, purchaseTotal, effQty, effSimplesRate, mkItem, resolveState,
    COMPANY_STATE, DEFAULT_INTERSTATE_RATE, DEFAULT_SIMPLES_RATE, max_def,
    upper_SP, upper_RJ, upper_MG, upper_empty, SP_ne_empty, RJ_ne_empty,
    SP_ne_MG, RJ_ne_MG, sr_RJ, sr_MG]

lemma example_total_cost : (calculate_report exampleProj).total_cost = 251 := by
  norm_num [calculate_report, exampleProj, exampleProd, grossOf, total_sale_from_products,
    saleTotal, purchaseTotal, effQty, effSimplesRate, mkItem, resolveState,
    COMPANY_STATE, DEFAULT_INTERSTATE_RATE, DEFAULT_SIMPLES_RATE, max_def,
    upper_SP, upper_RJ, upper_MG, upper_empty, SP_ne_empty, RJ_ne_empty,
    SP_ne_MG, RJ_ne_MG, sr_RJ, sr_MG]

example : (calculate_report exampleProj).das_total = 15 := by
  norm_num [calculate_report, exampleProj, exampleProd, grossOf, total_sale_from_products,
    saleTotal, purchaseTotal, effQty, effSimplesRate, mkItem, resolveState,
    COMPANY_STATE, DEFAULT_INTERSTATE_RATE, DEFAULT_SIMPLES_RATE, max_def,
    upper_SP, upper_RJ, upper_MG, upper_empty, SP_ne_empty, RJ_ne_empty,
    SP_ne_MG, RJ_ne_MG, sr_RJ, sr_MG]

example : (calculate_report exampleProj).total_difal_out = 24 := by
  norm_num [calculate_report, exampleProj, exampleProd, grossOf, total_sale_from_products,
    saleTotal, purchaseTotal, effQty, effSimplesRate, mkItem, resolveState,
    COMPANY_STATE, DEFAULT_INTERSTATE_RATE, DEFAULT_SIMPLES_RATE, max_def,
    upper_SP, upper_RJ, upper_MG, upper_empty, SP_ne_empty, RJ_ne_empty,
    SP_ne_MG, RJ_ne_MG, sr_RJ, sr_MG]

example : (calculate_report exampleProj).total_difal_in = 12 := by
  norm_num [calculate_report, exampleProj, exampleProd, grossOf, total_sale_from_products,
    saleTotal, purchaseTotal, effQty, effSimplesRate, mkItem, resolveState,
    COMPANY_STATE, DEFAULT_INTERSTATE_RATE, DEFAULT_SIMPLES_RATE, max_def,
    upper_SP, upper_RJ, upper_MG, upper_empty, SP_ne_empty, RJ_ne_empty,
    SP_ne_MG, RJ_ne_MG, sr_RJ, sr_MG]

example : (calculate_report exampleProj).net_value = 49 := by
  norm_num [calculate_report, exampleProj, exampleProd, grossOf, total_sale_from_products,
    saleTotal, purchaseTotal, effQty, effSimplesRate, mkItem, resolveState,
    COMPANY_STATE, DEFAULT_INTERSTATE_RATE, DEFAULT_SIMPLES_RATE, max_def,
    upper_SP, upper_RJ, upper_MG, upper_empty, SP_ne_empty, RJ_ne_empty,
    SP_ne_MG, RJ_ne_MG, sr_RJ, sr_MG]

/- Rounding facts. -/

lemma roundHalfEven_sub_abs (q : ℚ) : |(roundHalfEven q : ℚ) - q| ≤ 1/2 := by
  have h1 : (⌊q⌋ : ℚ) ≤ q := Int.floor_le q
  have h2 : q < ⌊q⌋ + 1 := Int.lt_floor_add_one q
  unfold roundHalfEven
  split
  · rw [abs_le]; constructor <;> [linarith; linarith]
  · rename_i hnot
    split
    · push_cast
      rw [abs_le]; constructor <;> [linarith; linarith]
    · rename_i hnot2
      have heq : q - ⌊q⌋ = 1/2 := by linarith
      split <;> (push_cast; rw [abs_le]; constructor <;> [linarith; linarith])

lemma round2_sub_abs (q : ℚ) : |round2 q - q| ≤ 1/200 := by
  have h := roundHalfEven_sub_abs (q * 100)
  unfold round2
  have heq : (roundHalfEven (q * 100) : ℚ) / 100 - q =
      ((roundHalfEven (q * 100) : ℚ) - q * 100) / 100 := by ring
  rw [heq, abs_div]
  rw [show |(100 : ℚ)| = 100 by norm_num]
  linarith

lemma round2_mul_tol (tc m : ℚ) (h0 : 0 < 1 - m) (h1 : 1 - m ≤ 1) :
    |round2 (tc / (1 - m)) * (1 - m) - tc| ≤ 1/100 := by
  have hne : (1 - m) ≠ 0 := ne_of_gt h0
  have habs := round2_sub_abs (tc / (1 - m))
  have hkey : round2 (tc / (1 - m)) * (1 - m) - tc =
      (round2 (tc / (1 - m)) - tc / (1 - m)) * (1 - m) := by
    field_simp
  rw [hkey, abs_mul, abs_of_pos h0]
  calc |round2 (tc / (1 - m)) - tc / (1 - m)| * (1 - m)
      ≤ (1/200) * (1 - m) := by
        exact mul_le_mul_of_nonneg_right habs (le_of_lt h0)
    _ ≤ (1/200) * 1 := by
        exact mul_le_mul_of_nonneg_left h1 (by norm_num)
    _ ≤ 1/100 := by norm_num

lemma effQty_pos (p : Product) : 0 < effQty p := by
  unfold effQty; split <;> omega

lemma marginLabel_ten : marginLabel (10/100) = "10%" := by
  unfold marginLabel
  rw [show ((10 : ℚ)/100 * 100) = ((10 : ℤ) : ℚ) by norm_num, Int.floor_intCast]
  decide

lemma marginLabel_fifteen : marginLabel (15/100) = "15%" := by
  unfold marginLabel
  rw [show ((15 : ℚ)/100 * 100) = ((15 : ℤ) : ℚ) by norm_num, Int.floor_intCast]
  decide

lemma marginLabel_twenty : marginLabel (20/100) = "20%" := by
  unfold marginLabel
  rw [show ((20 : ℚ)/100 * 100) = ((20 : ℤ) : ℚ) by norm_num, Int.floor_intCast]
  decide

/- ------------------------------------------------------------------ -/
/- Claim theorems.                                                      -/
/- ------------------------------------------------------------------ -/

/-- C1: for every compiled Report, `total_cost` equals
`total_purchase + total_difal_in + total_difal_out + total_other + das_total`,
where `total_purchase` is the sum over products of `purchase_cost * qty`,
the DIFAL totals are the sums of the per-item figures, `total_other` is the
sum of the OtherCost amounts, and `das_total = gross * simples_rate`. -/
theorem C1_total_cost_is_sum_of_components (proj : Project) :
    (calculate_report proj).total_cost =
      (calculate_report proj).total_purchase + (calculate_report proj).total_difal_in +
        (calculate_report proj).total_difal_out + (calculate_report proj).total_other +
        (calculate_report proj).das_total
    ∧ (calculate_report proj).total_purchase = (proj.products.map purchaseTotal).sum
    ∧ (calculate_report proj).total_difal_in =
        ((calculate_report proj).products.map Item.difal_in).sum
    ∧ (calculate_report proj).total_difal_out =
        ((calculate_report proj).products.map Item.difal_out).sum
    ∧ (calculate_report proj).total_other = (proj.other_costs.map OtherCost.cost).sum
    ∧ (calculate_report proj).das_total =
        (calculate_report proj).gross_sale * (calculate_report proj).simples_rate := by
  refine ⟨rfl, ?_, rfl, rfl, rfl, rfl⟩
  rw [report_total_purchase, List.map_map]
  rfl

/-- C2: the resolved gross sale is the sum of `sale_price * qty` over the
products whenever that sum is strictly positive, and the project's manual
`gross_sale` otherwise; in particular a project with at least one
positively priced product (all prices nonnegative) uses the line-item sum,
whatever the manual `gross_sale` value is. -/
theorem C2_gross_sale_resolution (proj : Project) :
    ((0 < total_sale_from_products proj →
        (calculate_report proj).gross_sale = total_sale_from_products proj)
      ∧ (¬ 0 < total_sale_from_products proj →
        (calculate_report proj).gross_sale = proj.gross_sale))
    ∧ ((∀ p ∈ proj.products, 0 ≤ p.sale_price) →
       (∃ p ∈ proj.products, 0 < p.sale_price) →
        (calculate_report proj).gross_sale = total_sale_from_products proj) := by
  refine ⟨⟨fun h => ?_, fun h => ?_⟩, fun hnn hex => ?_⟩
  · rw [report_gross, grossOf, if_pos h]
  · rw [report_gross, grossOf, if_neg h]
  · obtain ⟨p, hp, hpos⟩ := hex
    have hq : (0 : ℚ) < (effQty p : ℚ) := by exact_mod_cast effQty_pos p
    have hterm : 0 < saleTotal p := mul_pos hpos hq
    have hmem : saleTotal p ∈ proj.products.map saleTotal := List.mem_map_of_mem _ hp
    have hall : ∀ x ∈ proj.products.map saleTotal, 0 ≤ x := by
      intro x hx
      obtain ⟨q, hq', rfl⟩ := List.mem_map.mp hx
      exact mul_nonneg (hnn q hq') (le_of_lt (by exact_mod_cast effQty_pos q))
    have hle : saleTotal p ≤ (proj.products.map saleTotal).sum :=
      List.single_le_sum hall _ hmem
    have hpos' : 0 < total_sale_from_products proj :=
      lt_of_lt_of_le hterm (by simpa [total_sale_from_products] using hle)
    rw [report_gross, grossOf, if_pos hpos']

/-- Witness for C2 at `overrideProj`: the manual `gross_sale` of 1000000 is
ignored because the single product carries a positive price. -/
theorem C2_gross_sale_resolution_witness :
    (calculate_report overrideProj).gross_sale = total_sale_from_products overrideProj :=
  (C2_gross_sale_resolution overrideProj).2
    (by
      intro p hp
      simp only [overrideProj, List.mem_singleton] at hp
      subst hp
      norm_num [exampleProd])
    ⟨exampleProd, by simp [overrideProj], by norm_num [exampleProd]⟩

/-- C5: the rate resolver yields 0 on the empty code, the table rate for a
non-empty code whose uppercasing is a key of the table, and the default
interstate rate for any other non-empty code; being a total function, it
raises no error on any string input. -/
theorem C5_state_rate_resolution (s : String) :
    (s = "" → state_rate s = 0)
    ∧ (∀ r : ℚ, s ≠ "" → DEFAULT_STATE_RATES.lookup (upper s) = some r → state_rate s = r)
    ∧ (s ≠ "" → DEFAULT_STATE_RATES.lookup (upper s) = none →
        state_rate s = DEFAULT_INTERSTATE_RATE) := by
  refine ⟨fun h => ?_, fun r hne hsome => ?_, fun hne hnone => ?_⟩
  · unfold state_rate
    rw [if_pos h]
  · unfold state_rate
    rw [if_neg hne, hsome]
  · unfold state_rate
    rw [if_neg hne, hnone]

/-- Witness for C5 at the lowercase code `"rj"`: it is uppercased, found in
the table, and resolves to the RJ rate. -/
theorem C5_state_rate_resolution_witness :
    ("rj" : String) ≠ "" ∧ state_rate "rj" = 20/100 :=
  ⟨by decide, (C5_state_rate_resolution "rj").2.1 (20/100) (by decide) rfl⟩

/-- C9: the fixed margin set of the min-sale-for-profit computation
excludes every margin of 100% or more, so each divisor `1 - m` used by
`calculate_report` is nonzero and the formula never divides by zero. -/
theorem C9_margins_exclude_one :
    (∀ m ∈ profit_margins, m < 1) ∧ (∀ m ∈ profit_margins, 1 - m ≠ 0) := by
  constructor <;>
    (intro m hm
     simp only [profit_margins, List.mem_cons, List.not_mem_nil, or_false] at hm
     rcases hm with rfl | rfl | rfl <;> norm_num)

/-- Witness for C9 at the 10% margin. -/
theorem C9_margins_exclude_one_witness :
    (10 : ℚ)/100 < 1 ∧ (1 - (10 : ℚ)/100) ≠ 0 :=
  ⟨C9_margins_exclude_one.1 _ (by simp [profit_margins]),
   C9_margins_exclude_one.2 _ (by simp [profit_margins])⟩

/-- C3: per line item, `difal_out` follows the clamped differential formula
on the sale value (sale total if positive, else purchase total) exactly
when the resolved destination is non-empty and differs from the home
state; it is 0 otherwise, and it is never negative (given the data model's
nonnegative unit prices). -/
theorem C3_difal_out_formula (proj : Project) (it : Item)
    (hit : it ∈ (calculate_report proj).products)
    (hnn : ∀ p ∈ proj.products, 0 ≤ p.purchase_cost ∧ 0 ≤ p.sale_price) :
    (it.sale_state ≠ "" ∧ it.sale_state ≠ COMPANY_STATE →
      it.difal_out = max 0 (state_rate it.sale_state - DEFAULT_INTERSTATE_RATE) *
        (if 0 < it.sale_total then it.sale_total else it.purchase_total))
    ∧ ((it.sale_state = "" ∨ it.sale_state = COMPANY_STATE) → it.difal_out = 0)
    ∧ 0 ≤ it.difal_out := by
  rw [report_products] at hit
  obtain ⟨p, hp, rfl⟩ := List.mem_map.mp hit
  have hpt : 0 ≤ (mkItem proj p).purchase_total := by
    rw [mkItem_purchase_total, purchaseTotal]
    exact mul_nonneg (hnn p hp).1 (Nat.cast_nonneg _)
  have hst : 0 ≤ (mkItem proj p).sale_total := by
    rw [mkItem_sale_total, saleTotal]
    exact mul_nonneg (hnn p hp).2 (Nat.cast_nonneg _)
  refine ⟨fun hcond => ?_, fun hcond => ?_, ?_⟩
  · rw [mkItem_difal_out, if_pos hcond]
  · rw [mkItem_difal_out, if_neg ?_]
    intro hcond'
    rcases hcond with h | h
    · exact hcond'.1 h
    · exact hcond'.2 h
  · rw [mkItem_difal_out]
    split
    · refine mul_nonneg (le_max_left 0 _) ?_
      split
      · exact hst
      · exact hpt
    · exact le_refl 0

/-- Witness for C3 at the worked example's line item (destination RJ). -/
theorem C3_difal_out_formula_witness :
    0 ≤ (mkItem exampleProj exampleProd).difal_out :=
  (C3_difal_out_formula exampleProj (mkItem exampleProj exampleProd)
      (by
        rw [report_products]
        exact List.mem_map_of_mem _ (by simp [exampleProj]))
      (by
        intro p hp
        simp only [exampleProj, List.mem_singleton] at hp
        subst hp
        constructor <;> norm_num [exampleProd])).2.2

/-- C4: per line item, `difal_in` is the clamped differential between the
home state's own rate (`state_rate COMPANY_STATE`, not the origin's rate)
and the interstate rate, times the purchase total, exactly when the
resolved origin is non-empty and differs from the home state; it is 0
otherwise and never negative (given nonnegative unit costs). -/
theorem C4_difal_in_formula (proj : Project) (it : Item)
    (hit : it ∈ (calculate_report proj).products)
    (hnn : ∀ p ∈ proj.products, 0 ≤ p.purchase_cost) :
    (it.purchase_state ≠ "" ∧ it.purchase_state ≠ COMPANY_STATE →
      it.difal_in = max 0 (state_rate COMPANY_STATE - DEFAULT_INTERSTATE_RATE) *
        it.purchase_total)
    ∧ (¬ (it.purchase_state ≠ "" ∧ it.purchase_state ≠ COMPANY_STATE) → it.difal_in = 0)
    ∧ 0 ≤ it.difal_in := by
  rw [report_products] at hit
  obtain ⟨p, hp, rfl⟩ := List.mem_map.mp hit
  have hpt : 0 ≤ (mkItem proj p).purchase_total := by
    rw [mkItem_purchase_total, purchaseTotal]
    exact mul_nonneg (hnn p hp) (Nat.cast_nonneg _)
  refine ⟨fun hcond => ?_, fun hcond => ?_, ?_⟩
  · rw [mkItem_difal_in, if_pos hcond]
  · rw [mkItem_difal_in, if_neg hcond]
  · rw [mkItem_difal_in]
    split
    · exact mul_nonneg (le_max_left 0 _) hpt
    · exact le_refl 0

/-- Witness for C4 at the worked example's line item (origin SP). -/
theorem C4_difal_in_formula_witness :
    0 ≤ (mkItem exampleProj exampleProd).difal_in :=
  (C4_difal_in_formula exampleProj (mkItem exampleProj exampleProd)
      (by
        rw [report_products]
        exact List.mem_map_of_mem _ (by simp [exampleProj]))
      (by
        intro p hp
        simp only [exampleProj, List.mem_singleton] at hp
        subst hp
        norm_num [exampleProd])).2.2

/-- C10: a line item whose resolved destination is non-empty, differs from
the home state, and is not a key of the rate table gets `difal_out = 0`:
the resolver falls back to the interstate rate, so the clamped
differential is `max 0 0 = 0`. -/
theorem C10_unknown_destination_difal_out_zero (proj : Project) (it : Item)
    (hit : it ∈ (calculate_report proj).products)
    (h1 : it.sale_state ≠ "") (h2 : it.sale_state ≠ COMPANY_STATE)
    (h3 : DEFAULT_STATE_RATES.lookup (upper it.sale_state) = none) :
    it.difal_out = 0 := by
  rw [report_products] at hit
  obtain ⟨p, hp, rfl⟩ := List.mem_map.mp hit
  rw [mkItem_difal_out, if_pos ⟨h1, h2⟩]
  have hrate : state_rate (mkItem proj p).sale_state = DEFAULT_INTERSTATE_RATE := by
    unfold state_rate
    rw [if_neg h1, h3]
  rw [hrate]
  simp

/-- Witness for C10 at the item sold into the unlisted state BA. -/
theorem C10_unknown_destination_difal_out_zero_witness :
    (mkItem unknownStateProj unknownStateProd).difal_out = 0 :=
  C10_unknown_destination_difal_out_zero unknownStateProj _
    (by
      rw [report_products]
      exact List.mem_map_of_mem _ (by simp [unknownStateProj]))
    (by decide) (by decide) rfl

/-- C7: `net_value = gross - total_cost`; `net_percent` is
`net_value / gross * 100` when `gross > 0` and 0 when `gross = 0`; the
division is performed only under the guard `gross ≠ 0`, so no
division-by-zero failure can occur. -/
theorem C7_net_value_and_percent (proj : Project) :
    (calculate_report proj).net_value =
      (calculate_report proj).gross_sale - (calculate_report proj).total_cost
    ∧ (0 < (calculate_report proj).gross_sale →
        (calculate_report proj).net_percent =
          (calculate_report proj).net_value / (calculate_report proj).gross_sale * 100)
    ∧ ((calculate_report proj).gross_sale = 0 → (calculate_report proj).net_percent = 0) := by
  refine ⟨rfl, fun h => ?_, fun h => ?_⟩
  · rw [report_net_percent, if_pos (ne_of_gt h)]
  · rw [report_net_percent, if_neg (fun hne => hne h)]

/-- Witness for C7 at the worked example (`gross = 300 > 0`). -/
theorem C7_net_value_and_percent_witness :
    0 < (calculate_report exampleProj).gross_sale ∧
    (calculate_report exampleProj).net_percent =
      (calculate_report exampleProj).net_value / (calculate_report exampleProj).gross_sale *
        100 :=
  have hg : 0 < (calculate_report exampleProj).gross_sale := by
    rw [example_gross]; norm_num
  ⟨hg, (C7_net_value_and_percent exampleProj).2.1 hg⟩

/-- C8: `min_sale_for_profit` maps the labels of the fixed ordered margins
10%, 15%, 20% to `round2 (total_cost / (1 - m))`, and for a nonnegative
total cost each entry satisfies `value * (1 - m) = total_cost` within a
tolerance of 0.01. -/
theorem C8_min_sale_for_profit (proj : Project)
    (_h : 0 ≤ (calculate_report proj).total_cost) :
    (calculate_report proj).min_sale_for_profit =
      [("10%", round2 ((calculate_report proj).total_cost / (1 - 10/100))),
       ("15%", round2 ((calculate_report proj).total_cost / (1 - 15/100))),
       ("20%", round2 ((calculate_report proj).total_cost / (1 - 20/100)))]
    ∧ ∀ m ∈ profit_margins,
        |round2 ((calculate_report proj).total_cost / (1 - m)) * (1 - m) -
            (calculate_report proj).total_cost| ≤ 1/100 := by
  constructor
  · rw [report_min_sale]
    simp only [profit_margins, List.map_cons, List.map_nil]
    rw [marginLabel_ten, marginLabel_fifteen, marginLabel_twenty]
  · intro m hm
    simp only [profit_margins, List.mem_cons, List.not_mem_nil, or_false] at hm
    rcases hm with rfl | rfl | rfl <;>
      exact round2_mul_tol _ _ (by norm_num) (by norm_num)

/-- Witness for C8 at the worked example (`total_cost = 251 ≥ 0`). -/
theorem C8_min_sale_for_profit_witness :
    0 ≤ (calculate_report exampleProj).total_cost ∧
    (calculate_report exampleProj).min_sale_for_profit =
      [("10%", round2 ((calculate_report exampleProj).total_cost / (1 - 10/100))),
       ("15%", round2 ((calculate_report exampleProj).total_cost / (1 - 15/100))),
       ("20%", round2 ((calculate_report exampleProj).total_cost / (1 - 20/100)))] :=
  have h : 0 ≤ (calculate_report exampleProj).total_cost := by
    rw [example_total_cost]; norm_num
  ⟨h, (C8_min_sale_for_profit exampleProj h).1⟩

lemma normalizeQty_effQty (p : Product) : effQty (normalizeQty p) = effQty p := by
  unfold normalizeQty effQty
  by_cases h : p.qty = 0 <;> simp [h]

lemma normalizeQty_sale_price (p : Product) : (normalizeQty p).sale_price = p.sale_price := by
  unfold normalizeQty
  split <;> rfl

lemma normalizeQty_purchase_cost (p : Product) :
    (normalizeQty p).purchase_cost = p.purchase_cost := by
  unfold normalizeQty
  split <;> rfl

lemma normalizeQty_description (p : Product) :
    (normalizeQty p).description = p.description := by
  unfold normalizeQty
  split <;> rfl

lemma normalizeQty_purchase_state (p : Product) :
    (normalizeQty p).purchase_state = p.purchase_state := by
  unfold normalizeQty
  split <;> rfl

lemma normalizeQty_sale_state (p : Product) :
    (normalizeQty p).sale_state = p.sale_state := by
  unfold normalizeQty
  split <;> rfl

lemma normalizeQty_saleTotal (p : Product) : saleTotal (normalizeQty p) = saleTotal p := by
  unfold saleTotal
  rw [normalizeQty_effQty, normalizeQty_sale_price]

lemma normalizeQty_purchaseTotal (p : Product) :
    purchaseTotal (normalizeQty p) = purchaseTotal p := by
  unfold purchaseTotal
  rw [normalizeQty_effQty, normalizeQty_purchase_cost]

lemma normalizeQty_mkItem (proj : Project) (p : Product) :
    mkItem proj (normalizeQty p) = mkItem proj p := by
  simp only [mkItem, normalizeQty_purchaseTotal, normalizeQty_saleTotal, normalizeQty_effQty,
    normalizeQty_description, normalizeQty_purchase_state, normalizeQty_sale_state]

/-- C6: a product with an absent/zero `qty` contributes to every computed
figure exactly as if `qty` were 1: normalizing all such quantities to 1
before the computation leaves the whole compiled report unchanged (the
default is applied before any aggregation). -/
theorem C6_zero_qty_treated_as_one (proj : Project) :
    calculate_report { proj with products := proj.products.map normalizeQty } =
      calculate_report proj := by
  have hmk : ∀ p : Product,
      mkItem { proj with products := proj.products.map normalizeQty } p = mkItem proj p :=
    fun _ => rfl
  have hitems : (proj.products.map normalizeQty).map
        (mkItem { proj with products := proj.products.map normalizeQty }) =
      proj.products.map (mkItem proj) := by
    rw [List.map_map]
    refine List.map_congr_left ?_
    intro p _
    rw [Function.comp_apply, hmk, normalizeQty_mkItem]
  have hsale : total_sale_from_products
        { proj with products := proj.products.map normalizeQty } =
      total_sale_from_products proj := by
    show ((proj.products.map normalizeQty).map saleTotal).sum = _
    rw [List.map_map]
    refine congrArg List.sum (List.map_congr_left ?_)
    intro p _
    rw [Function.comp_apply, normalizeQty_saleTotal]
  have hgross : grossOf { proj with products := proj.products.map normalizeQty } =
      grossOf proj := by
    unfold grossOf
    rw [hsale]
  have hsimples : effSimplesRate { proj with products := proj.products.map normalizeQty } =
      effSimplesRate proj := rfl
  simp only [calculate_report, hgross, hsale, hitems, hsimples]

/- Evaluation of the rounded minimum-sale prices of the worked example,
matching spec §8's `278.89` for the 10% margin. -/

lemma roundHalfEven_down (q : ℚ) (f : ℤ) (hf : ⌊q⌋ = f) (h : q - f < 1/2) :
    roundHalfEven q = f := by
  unfold roundHalfEven
  rw [hf, if_pos h]

lemma roundHalfEven_up (q : ℚ) (f : ℤ) (hf : ⌊q⌋ = f) (h : 1/2 < q - f) :
    roundHalfEven q = f + 1 := by
  unfold roundHalfEven
  rw [hf, if_neg (by linarith), if_pos h]

lemma round2_example_ten : round2 (251 / (1 - 10/100)) = 27889/100 := by
  unfold round2
  rw [show ((251 : ℚ) / (1 - 10/100) * 100) = 251000/9 by norm_num]
  rw [roundHalfEven_up (251000/9) 27888 (by norm_num [Int.floor_eq_iff]) (by norm_num)]
  norm_num

lemma round2_example_fifteen : round2 (251 / (1 - 15/100)) = 29529/100 := by
  unfold round2
  rw [show ((251 : ℚ) / (1 - 15/100) * 100) = 502000/17 by norm_num]
  rw [roundHalfEven_down (502000/17) 29529 (by norm_num [Int.floor_eq_iff]) (by norm_num)]
  norm_num

lemma round2_example_twenty : round2 (251 / (1 - 20/100)) = 31375/100 := by
  unfold round2
  rw [show ((251 : ℚ) / (1 - 20/100) * 100) = ((31375 : ℤ) : ℚ) by norm_num]
  rw [roundHalfEven_down ((31375 : ℤ) : ℚ) 31375 (Int.floor_intCast _) (by norm_num)]
  norm_num

example :
    (calculate_report exampleProj).min_sale_for_profit =
      [("10%", 27889/100), ("15%", 29529/100), ("20%", 31375/100)] := by
  rw [report_min_sale, example_total_cost]
  simp only [profit_margins, List.map_cons, List.map_nil]
  rw [marginLabel_ten, marginLabel_fifteen, marginLabel_twenty,
    round2_example_ten, round2_example_fifteen, round2_example_twenty]
